import Mathlib

/-!
Shallow embedding of the report intake and prioritization pipeline of
`app.py` (crowd-sourced street issues map).  Python floats are idealized as
rationals (`ℚ`), Python strings as Lean `String` over their character lists
(the labels involved are ASCII).  The MongoDB store is modelled as a list of
documents plus a list of saved image paths; the geospatial proximity count,
whose geometry no claim touches, is abstracted as a function from
coordinates to a count.
-/

/-- Round-half-to-even of a rational to an integer, the convention of
Python's builtin `round`. -/
def roundHalfEven (q : ℚ) : ℤ :=
  if q - Rat.floor q < 1/2 then Rat.floor q
  else if 1/2 < q - Rat.floor q then Rat.floor q + 1
  else if Rat.floor q % 2 = 0 then Rat.floor q else Rat.floor q + 1

/-- Embedding of Python's `round(x, 2)`: round to two decimal places. -/
def round2 (q : ℚ) : ℚ := (roundHalfEven (q * 100) : ℚ) / 100

/-- Characters Python's `str.strip()` removes (ASCII whitespace). -/
def isPySpace (c : Char) : Bool :=
  c == ' ' || c == '\t' || c == '\n' || c == '\r' || c.toNat == 11 || c.toNat == 12

/-- Embedding of Python's `str.strip()`. -/
def pyStrip (s : String) : String :=
  ⟨((s.data.dropWhile isPySpace).reverse.dropWhile isPySpace).reverse⟩

/-- Word-tracking core of Python's `str.title()`: a letter starting a run is
uppercased, letters inside a run are lowercased, other characters pass
through and end the run. -/
def pyTitleAux : Bool → List Char → List Char
  | _, [] => []
  | prevCased, c :: cs =>
    if c.isAlpha then
      (if prevCased then c.toLower else c.toUpper) :: pyTitleAux true cs
    else
      c :: pyTitleAux false cs

/-- Embedding of Python's `str.title()` (ASCII letters). -/
def pyTitle (s : String) : String := ⟨pyTitleAux false s.data⟩

/-- Embedding of `s.replace("_", " ")` (single-character pattern, so a map). -/
def pyReplaceUnderscores (s : String) : String :=
  ⟨s.data.map (fun c => if c == '_' then ' ' else c)⟩

/-- `AUTHORITY_MAP` from app.py, in source order. -/
def AUTHORITY_MAP : List (String × String) :=
  [("Pothole", "GHMC"),
   ("Garbage", "GHMC"),
   ("Streetlight", "TSSPDCL"),
   ("Waterlogging", "HMWSSB"),
   ("Unsafe Area", "HYDRA"),
   ("Other Urban Issue", "GHMC")]

/-- `AUTHORITY_MAP.get(key, "GHMC")` from app.py. -/
def authorityGet (s : String) : String :=
  ((AUTHORITY_MAP.lookup s).getD "GHMC")

/-- Result dictionary of `analyze_image_unified`. -/
structure AIData where
  issue_type_ai : String
  ai_severity : String
  confidence : ℚ
  deriving DecidableEq

/-- The confidence-to-severity step in `analyze_image_unified` (lines 92-97):
`if confidence > 0.8: High elif confidence > 0.5: Medium else: Low`. -/
def severityOfConfidence (confidence : ℚ) : String :=
  if confidence > 4/5 then "High"
  else if confidence > 1/2 then "Medium"
  else "Low"

/-- `analyze_image_unified` from app.py.  The model artifact and OpenCV are
abstracted: `modelLoaded` is whether the pickle load succeeded, `decodes`
whether `cv2.imdecode` returns a non-None image, and on the success path the
classifier's outputs are the given raw `prediction` label and `confidence`
(the max of `predict_proba`). -/
def analyze_image_unified (modelLoaded decodes : Bool) (prediction : String)
    (confidence : ℚ) : AIData :=
  if modelLoaded = false then
    { issue_type_ai := "Other Urban Issue", ai_severity := "Low", confidence := 1/2 }
  else if decodes = false then
    { issue_type_ai := "Other Urban Issue", ai_severity := "Low", confidence := 1/2 }
  else
    { issue_type_ai := pyReplaceUnderscores prediction,
      ai_severity := severityOfConfidence confidence,
      confidence := confidence }

/-- The `severity_map` dictionary in `calculate_priority_score_unified`. -/
def severity_map : List (String × ℚ) :=
  [("High", 1), ("Medium", 3/5), ("Low", 3/10)]

/-- `severity_map.get(x, 0.3)` from app.py. -/
def severityWeightGet (s : String) : ℚ := (severity_map.lookup s).getD (3/10)

/-- `calculate_priority_score_unified` from app.py. -/
def calculate_priority_score_unified (ai_data : AIData)
    (existing_reports_count : ℕ) : ℚ :=
  let sev := severityWeightGet ai_data.ai_severity
  let dens := min ((existing_reports_count : ℚ) / 5) 1
  let conf := ai_data.confidence
  round2 (sev * 5 + dens * 3 + conf * 2)

/-- Label arbitration inside `submit_report` (lines 171-183 of app.py):
normalize the AI label with `strip().title()`, then prefer the user's
dropdown value whenever it is truthy (a non-empty string), stripping it. -/
def arbitrate_label (user_issue : Option String) (issue_type_ai : String) : String :=
  let normalized_ai := pyTitle (pyStrip issue_type_ai)
  match user_issue with
  | some u => if u = "" then normalized_ai else pyStrip u
  | none => normalized_ai

/-- `BASE_UPLOAD_FOLDER` from app.py. -/
def BASE_UPLOAD_FOLDER : String := "static/uploads"

/-- The persisted report document (the dict inserted at line 220 of app.py;
the two datetime fields are omitted, no claim concerns them). -/
structure Doc where
  issue_type : String
  description : String
  image_path : String
  lon : ℚ
  lat : ℚ
  ai_priority_score : ℚ
  ai_severity : String
  status : String
  deriving DecidableEq

/-- The mutable state `submit_report` touches: the reports collection and
the set of image files written under the upload folder. -/
structure StoreState where
  docs : List Doc
  images : List String
  deriving DecidableEq

/-- Observable side-effecting steps of `submit_report`, in program order:
running the classifier (`analyze_image_unified`), saving the uploaded image
(`file.save`), inserting the document (`insert_one`). -/
inductive Ev where
  | classify
  | saveImage
  | insertDoc
  deriving DecidableEq

/-- HTTP outcome of `submit_report`: a 400 rejection or a 201 creation
carrying the computed priority and target authority. -/
inductive HttpResp where
  | badRequest (msg : String)
  | created (ai_priority : ℚ) (target_authority : String)
  deriving DecidableEq

/-- A submission request. `hasImage` is whether the multipart form has an
`image` part; `imageDecodes` whether `cv2.imdecode` succeeds on its bytes;
`prediction` and `confidence` are the classifier outputs on the decoded
image; `lonField`/`latField` are the results of `float(data.get(...))`,
`none` when the field is absent or non-numeric (the `except` branch);
`filename` stands for the timestamped secure filename. -/
structure SubmitRequest where
  hasImage : Bool
  imageDecodes : Bool
  prediction : String
  confidence : ℚ
  filename : String
  issue_type : Option String
  lonField : Option ℚ
  latField : Option ℚ
  description : Option String

/-- `submit_report` from app.py (lines 155-239), as a function from the
request, the store state and an abstracted proximity count (what
`count_documents` with the `$centerSphere` query returns at the given
coordinates) to the new state, the trace of side-effecting steps in program
order, and the HTTP response. -/
def submit_report (modelLoaded : Bool) (countNearby : ℚ → ℚ → ℕ)
    (req : SubmitRequest) (st : StoreState) : StoreState × List Ev × HttpResp :=
  if req.hasImage = false then
    (st, [], .badRequest "No image provided")
  else
    let ai := analyze_image_unified modelLoaded req.imageDecodes req.prediction req.confidence
    let issue_type_final := arbitrate_label req.issue_type ai.issue_type_ai
    let target_authority := authorityGet issue_type_final
    match req.lonField, req.latField with
    | some lon, some lat =>
      let existing_reports := countNearby lon lat
      let priority_score := calculate_priority_score_unified ai existing_reports
      let image_path := BASE_UPLOAD_FOLDER ++ "/" ++ target_authority ++ "/" ++ req.filename
      let doc : Doc :=
        { issue_type := issue_type_final
          description := req.description.getD "No description provided."
          image_path := image_path
          lon := lon
          lat := lat
          ai_priority_score := priority_score
          ai_severity := ai.ai_severity
          status := "AI Analyzed" }
      ({ docs := st.docs ++ [doc], images := st.images ++ [image_path] },
       [Ev.classify, Ev.saveImage, Ev.insertDoc],
       .created priority_score target_authority)
    | _, _ => (st, [Ev.classify], .badRequest "Invalid coordinates")

/-- Descending order on priority score used by the `/api/reports` sort. -/
def byPriorityDesc (d1 d2 : Doc) : Prop :=
  d2.ai_priority_score ≤ d1.ai_priority_score

instance : DecidableRel byPriorityDesc :=
  fun d1 d2 => inferInstanceAs (Decidable (d2.ai_priority_score ≤ d1.ai_priority_score))

instance : IsTotal Doc byPriorityDesc :=
  ⟨fun a b => le_total b.ai_priority_score a.ai_priority_score⟩

instance : IsTrans Doc byPriorityDesc :=
  ⟨fun _ _ _ hab hbc => le_trans hbc hab⟩

/-- The list comprehension in `get_all_reports`: issue types whose authority
is `a`, in `AUTHORITY_MAP` order. -/
def reverse_issues (a : String) : List String :=
  (AUTHORITY_MAP.filter (fun p => p.2 == a)).map Prod.fst

/-- The Mongo query dict built by `get_all_reports`, as a predicate on
documents.  A truthy (non-empty) authority filter adds an
`issue_type ∈ issues` clause only when the expanded issue list is itself
truthy (non-empty); a truthy status filter adds an exact status match. -/
def reportQueryPred (authority_filter status_filter : Option String) (d : Doc) : Bool :=
  (match authority_filter with
   | none => true
   | some a =>
     if a = "" then true
     else
       let issues := reverse_issues a
       if issues.isEmpty then true else issues.contains d.issue_type)
  &&
  (match status_filter with
   | none => true
   | some s => if s = "" then true else d.status == s)

/-- `get_all_reports` from app.py (lines 242-262): filter by the query
dict, sort by `ai_priority_score` descending.  Mongo's sort is modelled as
insertion sort under `byPriorityDesc`; every claim about the result is
stated up to permutation and sortedness. -/
def get_all_reports (docs : List Doc)
    (authority_filter status_filter : Option String) : List Doc :=
  List.insertionSort byPriorityDesc
    (docs.filter (reportQueryPred authority_filter status_filter))

/-- The priority formula exactly as the specification words it, for the
refinement claim C1: `severityWeight*5 + densityWeight*3 + confidenceWeight*2`
rounded to 2 decimal places, with severity weights 1.0/0.6/0.3 for
High/Medium/Low and everything else, and density `min(count/5.0, 1.0)`. -/
def specPriorityFormula (severity : String) (existingCount : ℕ) (confidence : ℚ) : ℚ :=
  let severityWeight : ℚ :=
    if severity = "High" then 1 else if severity = "Medium" then 3/5 else 3/10
  let densityWeight : ℚ := min ((existingCount : ℚ) / 5) 1
  round2 (severityWeight * 5 + densityWeight * 3 + confidence * 2)

/-- The score as a function of severity string, nearby count and confidence
(the scorer ignores the label field of its input dictionary). -/
def scoreOf (severity : String) (existingCount : ℕ) (confidence : ℚ) : ℚ :=
  calculate_priority_score_unified
    { issue_type_ai := "", ai_severity := severity, confidence := confidence }
    existingCount

/-- A stored report whose issue type is in no key of `AUTHORITY_MAP`. -/
def xyzDoc : Doc :=
  { issue_type := "Xyz", description := "d", image_path := "p", lon := 0, lat := 0,
    ai_priority_score := 5, ai_severity := "Low", status := "AI Analyzed" }

/-- A request carrying a decodable image but an absent/non-numeric longitude. -/
def badCoordReq : SubmitRequest :=
  { hasImage := true, imageDecodes := true, prediction := "pothole",
    confidence := 9/10, filename := "f.jpg", issue_type := none,
    lonField := none, latField := some 0, description := none }

/-- The empty store. -/
def emptyStore : StoreState := { docs := [], images := [] }

/-- A request with valid coordinates whose image bytes do not decode. -/
def undecodableReq : SubmitRequest :=
  { hasImage := true, imageDecodes := false, prediction := "pothole",
    confidence := 9/10, filename := "f.jpg", issue_type := none,
    lonField := some 0, latField := some 0, description := none }

/-- Batteries' computable `Rat.floor` agrees with Mathlib's `Int.floor`. -/
theorem ratFloor_eq_intFloor (q : ℚ) : Rat.floor q = ⌊q⌋ := by
  rw [Rat.floor_def', Rat.floor_def]

/-- The rounding written with `Int.floor`, for proofs. -/
theorem roundHalfEven_eq (q : ℚ) :
    roundHalfEven q =
      if q - ⌊q⌋ < 1/2 then ⌊q⌋
      else if 1/2 < q - ⌊q⌋ then ⌊q⌋ + 1
      else if ⌊q⌋ % 2 = 0 then ⌊q⌋ else ⌊q⌋ + 1 := by
  simp only [roundHalfEven, ratFloor_eq_intFloor]

/-- Rounding an integer returns it unchanged. -/
theorem roundHalfEven_intCast (n : ℤ) : roundHalfEven ((n : ℚ)) = n := by
  rw [roundHalfEven_eq, Int.floor_intCast]
  norm_num

theorem roundHalfEven_ge_floor (q : ℚ) : ⌊q⌋ ≤ roundHalfEven q := by
  rw [roundHalfEven_eq]
  split_ifs <;> omega

theorem roundHalfEven_le_floor_add_one (q : ℚ) : roundHalfEven q ≤ ⌊q⌋ + 1 := by
  rw [roundHalfEven_eq]
  split_ifs <;> omega

/-- `roundHalfEven` is monotone. -/
theorem roundHalfEven_mono {a b : ℚ} (h : a ≤ b) :
    roundHalfEven a ≤ roundHalfEven b := by
  have hf : ⌊a⌋ ≤ ⌊b⌋ := Int.floor_mono h
  rcases lt_or_eq_of_le hf with hlt | heq
  · calc roundHalfEven a ≤ ⌊a⌋ + 1 := roundHalfEven_le_floor_add_one a
    _ ≤ ⌊b⌋ := by omega
    _ ≤ roundHalfEven b := roundHalfEven_ge_floor b
  · have hfr : a - (⌊a⌋ : ℚ) ≤ b - (⌊b⌋ : ℚ) := by
      rw [← heq]
      linarith
    rw [roundHalfEven_eq, roundHalfEven_eq, ← heq] at *
    split_ifs <;> first | omega | (exfalso; linarith)

/-- `round2` is monotone. -/
theorem round2_mono {a b : ℚ} (h : a ≤ b) : round2 a ≤ round2 b := by
  unfold round2
  have h100 : a * 100 ≤ b * 100 := by linarith
  have := roundHalfEven_mono h100
  have hc : ((roundHalfEven (a * 100) : ℚ)) ≤ ((roundHalfEven (b * 100) : ℚ)) := by
    exact_mod_cast this
  linarith

/-- Evaluate `round2` when the scaled value is an integer. -/
theorem round2_eq_of_mul_eq (q : ℚ) (n : ℤ) (h : q * 100 = (n : ℚ)) :
    round2 q = (n : ℚ) / 100 := by
  unfold round2
  rw [h, roundHalfEven_intCast]

theorem round2_zero : round2 0 = 0 := by
  have h := round2_eq_of_mul_eq 0 0 (by norm_num)
  simpa using h

theorem round2_ten : round2 10 = 10 := by
  have h := round2_eq_of_mul_eq 10 1000 (by norm_num)
  rw [h]
  norm_num

/-- The dictionary lookup with default in the scorer, as an `if` chain. -/
theorem severityWeightGet_eq (s : String) :
    severityWeightGet s =
      if s = "High" then 1 else if s = "Medium" then 3/5 else 3/10 := by
  simp only [severityWeightGet, severity_map, List.lookup]
  cases hb1 : s == "High" <;> cases hb2 : s == "Medium" <;> cases hb3 : s == "Low" <;>
    simp_all [beq_iff_eq]

theorem severityWeightGet_lower (s : String) : 3/10 ≤ severityWeightGet s := by
  rw [severityWeightGet_eq]
  split_ifs <;> norm_num

theorem severityWeightGet_upper (s : String) : severityWeightGet s ≤ 1 := by
  rw [severityWeightGet_eq]
  split_ifs <;> norm_num

theorem densityWeight_nonneg (n : ℕ) : 0 ≤ min ((n : ℚ) / 5) 1 :=
  le_min (by positivity) zero_le_one

theorem densityWeight_le_one (n : ℕ) : min ((n : ℚ) / 5) 1 ≤ 1 :=
  min_le_right _ _

theorem densityWeight_mono {m n : ℕ} (h : m ≤ n) :
    min ((m : ℚ) / 5) 1 ≤ min ((n : ℚ) / 5) 1 := by
  apply min_le_min _ le_rfl
  have : (m : ℚ) ≤ (n : ℚ) := by exact_mod_cast h
  linarith

theorem densityWeight_saturates {n : ℕ} (h : 5 ≤ n) :
    min ((n : ℚ) / 5) 1 = 1 := by
  apply min_eq_right
  rw [le_div_iff₀ (by norm_num : (0:ℚ) < 5)]
  have : (5 : ℚ) ≤ (n : ℚ) := by exact_mod_cast h
  linarith

/-- C1: for every severity string (unknown ones weighted as Low = 0.3),
count and confidence, `calculate_priority_score_unified` returns exactly
the spec's formula `round(severityWeight*5 + min(count/5,1)*3 + c*2, 2)`
with weights 1.0/0.6/0.3 for High/Medium/Low; in particular severity High,
count 3, confidence 0.9 scores exactly 8.6. -/
theorem priority_score_matches_spec_formula (lbl severity : String) (n : ℕ) (c : ℚ) :
    calculate_priority_score_unified
        { issue_type_ai := lbl, ai_severity := severity, confidence := c } n =
      specPriorityFormula severity n c ∧
    calculate_priority_score_unified
        { issue_type_ai := lbl, ai_severity := "High", confidence := 9/10 } 3 = 43/5 := by
  constructor
  · unfold calculate_priority_score_unified specPriorityFormula
    rw [severityWeightGet_eq]
  · unfold calculate_priority_score_unified
    rw [severityWeightGet_eq]
    norm_num
    rw [round2_eq_of_mul_eq _ 860 (by norm_num)]
    norm_num

/-- C2: severity from confidence is the three-tier step function
`> 0.8 → High`, `> 0.5 → Medium`, else `Low`, with both boundaries falling
to the lower tier: 0.8 gives Medium and 0.5 gives Low. -/
theorem severity_step_function (c : ℚ) :
    (4/5 < c → severityOfConfidence c = "High") ∧
    (1/2 < c → c ≤ 4/5 → severityOfConfidence c = "Medium") ∧
    (c ≤ 1/2 → severityOfConfidence c = "Low") ∧
    severityOfConfidence (4/5) = "Medium" ∧
    severityOfConfidence (1/2) = "Low" := by
  unfold severityOfConfidence
  refine ⟨?_, ?_, ?_, ?_, ?_⟩
  · intro h
    rw [if_pos h]
  · intro h1 h2
    rw [if_neg (by linarith), if_pos h1]
  · intro h
    rw [if_neg (by linarith), if_neg (by linarith)]
  · norm_num
  · norm_num

/-- Witness for C2 at confidence 0.9. -/
theorem severity_step_function_w : severityOfConfidence (9/10) = "High" :=
  (severity_step_function (9/10)).1 (by norm_num)

/-- C3 counterexample: a whitespace-only user label is empty after
trimming, yet the arbitrated label is the empty string, not the
normalized classifier label "Pothole" the claim requires. -/
theorem label_arbitration_cex :
    pyStrip "   " = "" ∧
    arbitrate_label (some "   ") "pothole" = "" ∧
    arbitrate_label (some "   ") "pothole" ≠ pyTitle (pyStrip "pothole") := by
  refine ⟨by decide, by decide, by decide⟩

/-- C3 amended: a user label that is non-empty before trimming wins and is
returned trimmed with case preserved ("  pothole " gives "pothole"); an
absent or exactly-empty user label falls through to the classifier label,
underscore-replaced, trimmed and title-cased ("unsafe_area" gives
"Unsafe Area"); a whitespace-only user label yields the empty string. -/
theorem label_arbitration (ai u : String) :
    (u ≠ "" → arbitrate_label (some u) ai = pyStrip u) ∧
    arbitrate_label none ai = pyTitle (pyStrip ai) ∧
    arbitrate_label (some "") ai = pyTitle (pyStrip ai) ∧
    arbitrate_label (some "  pothole ") ai = "pothole" ∧
    arbitrate_label none (pyReplaceUnderscores "unsafe_area") = "Unsafe Area" := by
  refine ⟨?_, rfl, ?_, ?_, by decide⟩
  · intro h
    show (if u = "" then pyTitle (pyStrip ai) else pyStrip u) = pyStrip u
    rw [if_neg h]
  · show (if ("" : String) = "" then pyTitle (pyStrip ai) else pyStrip "") =
      pyTitle (pyStrip ai)
    rw [if_pos rfl]
  · show (if ("  pothole " : String) = "" then pyTitle (pyStrip ai)
        else pyStrip "  pothole ") = "pothole"
    rw [if_neg (by decide)]
    decide

/-- Witness for C3 at a concrete non-empty user label. -/
theorem label_arbitration_w :
    arbitrate_label (some " Garbage") "pothole" = pyStrip " Garbage" :=
  (label_arbitration "pothole" " Garbage").1 (by decide)

/-- C4: the authority router realizes the documented static table and sends
every unmapped string to the default "GHMC"; it is total by construction. -/
theorem authority_router_total (s : String)
    (h : s ∉ AUTHORITY_MAP.map Prod.fst) :
    authorityGet "Pothole" = "GHMC" ∧
    authorityGet "Streetlight" = "TSSPDCL" ∧
    authorityGet "Waterlogging" = "HMWSSB" ∧
    authorityGet "Unsafe Area" = "HYDRA" ∧
    authorityGet s = "GHMC" := by
  refine ⟨by decide, by decide, by decide, by decide, ?_⟩
  simp only [AUTHORITY_MAP, List.map, List.mem_cons, List.not_mem_nil, or_false] at h
  push_neg at h
  obtain ⟨h1, h2, h3, h4, h5, h6⟩ := h
  simp only [authorityGet, AUTHORITY_MAP, List.lookup]
  cases hb1 : s == "Pothole" <;> cases hb2 : s == "Garbage" <;>
    cases hb3 : s == "Streetlight" <;> cases hb4 : s == "Waterlogging" <;>
    cases hb5 : s == "Unsafe Area" <;> cases hb6 : s == "Other Urban Issue" <;>
    simp_all [beq_iff_eq]

/-- Witness for C4 at an unmapped issue type. -/
theorem authority_router_total_w : authorityGet "Traffic Jam" = "GHMC" :=
  (authority_router_total "Traffic Jam" (by decide)).2.2.2.2

/-- C5 counterexample: a stored report with the unmapped issue type "Xyz"
routes to "GHMC", yet filtering by authority "GHMC" returns the empty
list, omitting it — the claim's "including unmapped fallback types" fails. -/
theorem filter_ghmc_cex :
    authorityGet "Xyz" = "GHMC" ∧
    get_all_reports [xyzDoc] (some "GHMC") none = [] := by
  constructor
  · decide
  · rfl

/-- C5 amended: filtering by authority "GHMC" returns exactly (as a
multiset) the reports whose issue type is one of the keys statically mapped
to GHMC — "Pothole", "Garbage", "Other Urban Issue" — sorted descending by
priority score; reports with unmapped issue types are excluded even though
they serialize with target authority "GHMC". -/
theorem filter_ghmc (docs : List Doc) :
    (get_all_reports docs (some "GHMC") none).Perm
      (docs.filter
        (fun d => (["Pothole", "Garbage", "Other Urban Issue"] : List String).contains
          d.issue_type)) ∧
    List.Sorted byPriorityDesc (get_all_reports docs (some "GHMC") none) := by
  constructor
  · rw [get_all_reports]
    have hf : docs.filter (reportQueryPred (some "GHMC") none) =
        docs.filter
          (fun d => (["Pothole", "Garbage", "Other Urban Issue"] : List String).contains
            d.issue_type) := by
      apply List.filter_congr
      intro d _
      have hri : reverse_issues "GHMC" = ["Pothole", "Garbage", "Other Urban Issue"] := rfl
      simp [reportQueryPred, hri]
    rw [hf]
    exact List.perm_insertionSort _ _
  · rw [get_all_reports]
    exact List.sorted_insertionSort _ _

/-- C6: the score is in [0, 10] for confidence in [0, 1], and is
monotonically non-decreasing independently in severity rank, in nearby
count (constant once the count reaches 5), and in confidence; counts 5 and
50 give identical scores. -/
theorem scorer_bounds_monotone (severity : String) (n : ℕ) (c : ℚ)
    (h0 : 0 ≤ c) (h1 : c ≤ 1) :
    (0 ≤ scoreOf severity n c ∧ scoreOf severity n c ≤ 10) ∧
    (scoreOf "Low" n c ≤ scoreOf "Medium" n c ∧
      scoreOf "Medium" n c ≤ scoreOf "High" n c) ∧
    (∀ m : ℕ, m ≤ n → scoreOf severity m c ≤ scoreOf severity n c) ∧
    (5 ≤ n → scoreOf severity n c = scoreOf severity 5 c) ∧
    (∀ c2 : ℚ, c ≤ c2 → scoreOf severity n c ≤ scoreOf severity n c2) ∧
    scoreOf severity 5 c = scoreOf severity 50 c := by
  have hs1 := severityWeightGet_lower severity
  have hs2 := severityWeightGet_upper severity
  have hd1 := densityWeight_nonneg n
  have hd2 := densityWeight_le_one n
  simp only [scoreOf, calculate_priority_score_unified]
  refine ⟨⟨?_, ?_⟩, ⟨?_, ?_⟩, ?_, ?_, ?_, ?_⟩
  · calc (0 : ℚ) = round2 0 := round2_zero.symm
    _ ≤ _ := round2_mono (by nlinarith)
  · calc round2 _ ≤ round2 10 := round2_mono (by nlinarith)
    _ = 10 := round2_ten
  · apply round2_mono
    have e1 : severityWeightGet "Low" = 3/10 := rfl
    have e2 : severityWeightGet "Medium" = 3/5 := rfl
    rw [e1, e2]
    linarith
  · apply round2_mono
    have e1 : severityWeightGet "Medium" = 3/5 := rfl
    have e2 : severityWeightGet "High" = 1 := rfl
    rw [e1, e2]
    linarith
  · intro m hm
    apply round2_mono
    have := densityWeight_mono hm
    nlinarith
  · intro hn
    rw [densityWeight_saturates hn, densityWeight_saturates (by norm_num : 5 ≤ 5)]
  · intro c2 hc
    apply round2_mono
    nlinarith
  · rw [densityWeight_saturates (by norm_num : 5 ≤ 5),
      densityWeight_saturates (by norm_num : 5 ≤ 50)]

/-- Witness for C6 at severity High, count 3, confidence 0.9. -/
theorem scorer_bounds_monotone_w :
    0 ≤ scoreOf "High" 3 (9/10) ∧ scoreOf "High" 3 (9/10) ≤ 10 :=
  (scorer_bounds_monotone "High" 3 (9/10) (by norm_num) (by norm_num)).1

/-- C7: a submission whose image bytes cannot be decoded, or processed while
the model artifact failed to load, is not rejected: the analysis yields the
fixed fallback (label "Other Urban Issue", severity "Low", confidence 0.5)
and a report is still appended to the store with status "AI Analyzed". -/
theorem fallback_report_persisted (ml : Bool) (cn : ℚ → ℚ → ℕ)
    (req : SubmitRequest) (st : StoreState) (lon lat : ℚ)
    (himg : req.hasImage = true)
    (hfb : ml = false ∨ req.imageDecodes = false)
    (hlon : req.lonField = some lon) (hlat : req.latField = some lat) :
    analyze_image_unified ml req.imageDecodes req.prediction req.confidence =
      { issue_type_ai := "Other Urban Issue", ai_severity := "Low", confidence := 1/2 } ∧
    ∃ d : Doc,
      (submit_report ml cn req st).1.docs = st.docs ++ [d] ∧
      d.status = "AI Analyzed" ∧
      d.ai_severity = "Low" ∧
      ∃ p a, (submit_report ml cn req st).2.2 = HttpResp.created p a := by
  have hai : analyze_image_unified ml req.imageDecodes req.prediction req.confidence =
      { issue_type_ai := "Other Urban Issue", ai_severity := "Low", confidence := 1/2 } := by
    rcases hfb with h | h
    · unfold analyze_image_unified
      rw [h, if_pos rfl]
    · unfold analyze_image_unified
      by_cases hml : ml = false
      · rw [if_pos hml]
      · rw [if_neg hml, if_pos h]
  refine ⟨hai, ?_⟩
  simp only [submit_report, himg, hlon, hlat, hai]
  exact ⟨_, rfl, rfl, rfl, _, _, rfl⟩

/-- Witness for C7 on a concrete undecodable-image request. -/
theorem fallback_report_persisted_w :
    analyze_image_unified true undecodableReq.imageDecodes undecodableReq.prediction
        undecodableReq.confidence =
      { issue_type_ai := "Other Urban Issue", ai_severity := "Low", confidence := 1/2 } ∧
    ∃ d : Doc,
      (submit_report true (fun _ _ => 0) undecodableReq emptyStore).1.docs =
        emptyStore.docs ++ [d] ∧
      d.status = "AI Analyzed" ∧
      d.ai_severity = "Low" ∧
      ∃ p a, (submit_report true (fun _ _ => 0) undecodableReq emptyStore).2.2 =
        HttpResp.created p a :=
  fallback_report_persisted true (fun _ _ => 0) undecodableReq emptyStore 0 0
    rfl (Or.inr rfl) rfl rfl

/-- C8 counterexample: a submission with a decodable image but a missing
longitude is rejected with 400 "Invalid coordinates", yet the classifier
step has already executed — so not every client-input rejection precedes
classification. -/
theorem rejection_order_cex :
    (submit_report true (fun _ _ => 0) badCoordReq emptyStore).2.2 =
      HttpResp.badRequest "Invalid coordinates" ∧
    Ev.classify ∈ (submit_report true (fun _ _ => 0) badCoordReq emptyStore).2.1 := by
  constructor
  · rfl
  · show Ev.classify ∈ [Ev.classify]
    exact List.mem_singleton_self _

/-- C8 amended: a missing image part is rejected before any classification
work (empty trace); an absent or non-numeric coordinate is rejected only
after classification has executed (the trace is exactly the classify step),
though still before any persistence. -/
theorem rejection_order (ml : Bool) (cn : ℚ → ℚ → ℕ)
    (req : SubmitRequest) (st : StoreState) :
    (req.hasImage = false →
      (submit_report ml cn req st).2.1 = [] ∧
      (submit_report ml cn req st).2.2 = HttpResp.badRequest "No image provided") ∧
    (req.hasImage = true → req.lonField = none ∨ req.latField = none →
      (submit_report ml cn req st).2.1 = [Ev.classify] ∧
      (submit_report ml cn req st).2.2 = HttpResp.badRequest "Invalid coordinates") := by
  constructor
  · intro h
    simp [submit_report, h]
  · intro himg h
    rcases h with h | h
    · simp [submit_report, himg, h]
    · cases hl : req.lonField <;> simp [submit_report, himg, h, hl]

/-- Witness for C8 on the concrete bad-coordinate request. -/
theorem rejection_order_w :
    (submit_report true (fun _ _ => 0) badCoordReq emptyStore).2.1 = [Ev.classify] ∧
    (submit_report true (fun _ _ => 0) badCoordReq emptyStore).2.2 =
      HttpResp.badRequest "Invalid coordinates" :=
  (rejection_order true (fun _ _ => 0) badCoordReq emptyStore).2 rfl (Or.inl rfl)

/-- C9: every rejected submission — missing image part or unparseable
longitude/latitude — returns before any state change: the store and the
upload folder are untouched. -/
theorem rejected_no_state_change (ml : Bool) (cn : ℚ → ℚ → ℕ)
    (req : SubmitRequest) (st : StoreState)
    (h : req.hasImage = false ∨ req.lonField = none ∨ req.latField = none) :
    (submit_report ml cn req st).1 = st ∧
    (submit_report ml cn req st).1.docs = st.docs ∧
    (submit_report ml cn req st).1.images = st.images ∧
    ∃ msg, (submit_report ml cn req st).2.2 = HttpResp.badRequest msg := by
  have key : (submit_report ml cn req st).1 = st ∧
      ∃ msg, (submit_report ml cn req st).2.2 = HttpResp.badRequest msg := by
    rcases h with h | h | h
    · refine ⟨by simp [submit_report, h], "No image provided", by simp [submit_report, h]⟩
    · cases himg : req.hasImage
      · exact ⟨by simp [submit_report, himg], "No image provided", by simp [submit_report, himg]⟩
      · exact ⟨by simp [submit_report, himg, h], "Invalid coordinates",
          by simp [submit_report, himg, h]⟩
    · cases himg : req.hasImage
      · exact ⟨by simp [submit_report, himg], "No image provided", by simp [submit_report, himg]⟩
      · cases hl : req.lonField
        · exact ⟨by simp [submit_report, himg, hl], "Invalid coordinates",
            by simp [submit_report, himg, hl]⟩
        · exact ⟨by simp [submit_report, himg, h, hl], "Invalid coordinates",
            by simp [submit_report, himg, h, hl]⟩
  exact ⟨key.1, by rw [key.1], by rw [key.1], key.2⟩

/-- Witness for C9 on the concrete bad-coordinate request. -/
theorem rejected_no_state_change_w :
    (submit_report true (fun _ _ => 0) badCoordReq emptyStore).1 = emptyStore ∧
    (submit_report true (fun _ _ => 0) badCoordReq emptyStore).1.docs = emptyStore.docs ∧
    (submit_report true (fun _ _ => 0) badCoordReq emptyStore).1.images =
      emptyStore.images ∧
    ∃ msg, (submit_report true (fun _ _ => 0) badCoordReq emptyStore).2.2 =
      HttpResp.badRequest msg :=
  rejected_no_state_change true (fun _ _ => 0) badCoordReq emptyStore (Or.inr (Or.inl rfl))

/-- C10: a non-empty authority filter matching no authority code expands to
an empty issue list, so no issue-type restriction is applied and the query
behaves exactly as if no authority filter had been given. -/
theorem unknown_authority_filter (docs : List Doc) (a : String) (sf : Option String)
    (ha : a ≠ "") (hnone : ∀ p ∈ AUTHORITY_MAP, p.2 ≠ a) :
    get_all_reports docs (some a) sf = get_all_reports docs none sf := by
  have g1 : ("GHMC" == a) = false :=
    beq_eq_false_iff_ne.mpr (hnone ("Pothole", "GHMC") (by decide))
  have g2 : ("TSSPDCL" == a) = false :=
    beq_eq_false_iff_ne.mpr (hnone ("Streetlight", "TSSPDCL") (by decide))
  have g3 : ("HMWSSB" == a) = false :=
    beq_eq_false_iff_ne.mpr (hnone ("Waterlogging", "HMWSSB") (by decide))
  have g4 : ("HYDRA" == a) = false :=
    beq_eq_false_iff_ne.mpr (hnone ("Unsafe Area", "HYDRA") (by decide))
  have hempty : reverse_issues a = [] := by
    unfold reverse_issues AUTHORITY_MAP
    simp [List.filter, g1, g2, g3, g4]
  unfold get_all_reports
  congr 1
  apply List.filter_congr
  intro d _
  simp [reportQueryPred, ha, hempty]

/-- Witness for C10 at the unmapped authority code "XYZ". -/
theorem unknown_authority_filter_w :
    get_all_reports [xyzDoc] (some "XYZ") none = get_all_reports [xyzDoc] none none :=
  unknown_authority_filter [xyzDoc] "XYZ" none (by decide) (by decide)
